import Mathlib

/-!
Verification development for the Nomad Nvidia device plugin
(hashicorp/nomad-device-nvidia).

The first half embeds the `nvml` package: the data model of
`nvml/client.go` and the driver interface of the nvml package, together
with the two client pipelines `GetFingerprintData` and `GetStatsData`.
Go's nondeterministic map iteration is modelled by passing the listing of
`ListDeviceUUIDs` as an association list in some iteration order.

The second half models the `nvidia` package (attribute normalisation,
change detection, exclusion filters).  Its implementation files are not
part of the source tree here, only their tests; those definitions are
modelled from the specification and pinned by the expectations of the
tests (`TestStatsForItem`, `TestAttributesFromFingerprintDeviceData`,
`TestCheckFingerprintUpdates`, `TestIgnoreFingerprintedDevices`,
`TestFilterStatsByID`).
-/

set_option maxHeartbeats 1000000

/-- Device classification of `nvml`: `mode` with constants `normal`,
`parent` (a physical parent of MIG partitions) and `mig` (a MIG
partition). -/
inductive Mode where
  | normal
  | parent
  | mig
  deriving DecidableEq, Repr

/-- `DeviceData` of `nvml/client.go`: common fields for an Nvidia device.
Go pointer fields become `Option`. -/
structure DeviceData where
  UUID : String
  DeviceName : Option String
  MemoryMiB : Option Nat
  PowerW : Option Nat
  BAR1MiB : Option Nat
  deriving DecidableEq, Repr

/-- `FingerprintDeviceData` of `nvml/client.go`: a superset of
`DeviceData` describing device specific fields returned from nvml
queries during fingerprinting. -/
structure FingerprintDeviceData where
  deviceData : DeviceData
  PCIBandwidthMBPerS : Option Nat
  CoresClockMHz : Option Nat
  MemoryClockMHz : Option Nat
  DisplayState : String
  PersistenceMode : String
  PCIBusID : String
  deriving DecidableEq, Repr

/-- `FingerprintData` of `nvml/client.go`: attributes of driver/devices. -/
structure FingerprintData where
  Devices : List FingerprintDeviceData
  DriverVersion : String
  deriving DecidableEq, Repr

/-- `StatsData` of `nvml/client.go`: statistics data returned for every
Nvidia device. -/
structure StatsData where
  deviceData : DeviceData
  PowerUsageW : Option Nat
  GPUUtilization : Option Nat
  MemoryUtilization : Option Nat
  EncoderUtilization : Option Nat
  DecoderUtilization : Option Nat
  TemperatureC : Option Nat
  UsedMemoryMiB : Option Nat
  BAR1UsedMiB : Option Nat
  ECCErrorsL1Cache : Option Nat
  ECCErrorsL2Cache : Option Nat
  ECCErrorsDevice : Option Nat
  deriving DecidableEq, Repr

/-- `DeviceInfo` of the nvml package: device data returned by
`DeviceInfoByUUID` and `DeviceInfoAndStatusByUUID`. -/
structure DeviceInfo where
  UUID : String
  PCIBusID : String
  DisplayState : String
  PersistenceMode : String
  Name : Option String
  MemoryMiB : Option Nat
  PowerW : Option Nat
  BAR1MiB : Option Nat
  PCIBandwidthMBPerS : Option Nat
  CoresClockMHz : Option Nat
  MemoryClockMHz : Option Nat
  deriving DecidableEq, Repr

/-- `DeviceStatus` of the nvml package: device status returned by
`DeviceInfoAndStatusByUUID`. -/
structure DeviceStatus where
  PowerUsageW : Option Nat
  TemperatureC : Option Nat
  GPUUtilization : Option Nat
  MemoryUtilization : Option Nat
  EncoderUtilization : Option Nat
  DecoderUtilization : Option Nat
  BAR1UsedMiB : Option Nat
  UsedMemoryMiB : Option Nat
  ECCErrorsL1Cache : Option Nat
  ECCErrorsL2Cache : Option Nat
  ECCErrorsDevice : Option Nat
  ECCErrorsRegisterFile : Option Nat
  deriving DecidableEq, Repr

/-- `NvmlDriver` interface of the nvml package.  `ListDeviceUUIDs`
returns the Go map `map[string]mode` as an association list in the
(nondeterministic) iteration order of the map. -/
structure NvmlDriver where
  SystemDriverVersion : Except String String
  ListDeviceUUIDs : Except String (List (String × Mode))
  DeviceInfoByUUID : String → Except String DeviceInfo
  DeviceInfoAndStatusByUUID : String → Except String (DeviceInfo × DeviceStatus)

/-- The `FingerprintDeviceData` literal built inside the loop of
`GetFingerprintData` from the result of `DeviceInfoByUUID`. -/
def fingerprintRecordOfInfo (deviceInfo : DeviceInfo) : FingerprintDeviceData :=
  { deviceData :=
      { DeviceName := deviceInfo.Name
        UUID := deviceInfo.UUID
        MemoryMiB := deviceInfo.MemoryMiB
        PowerW := deviceInfo.PowerW
        BAR1MiB := deviceInfo.BAR1MiB }
    PCIBandwidthMBPerS := deviceInfo.PCIBandwidthMBPerS
    CoresClockMHz := deviceInfo.CoresClockMHz
    MemoryClockMHz := deviceInfo.MemoryClockMHz
    DisplayState := deviceInfo.DisplayState
    PersistenceMode := deviceInfo.PersistenceMode
    PCIBusID := deviceInfo.PCIBusID }

/-- The `StatsData` literal built inside the loop of `GetStatsData` from
the result of `DeviceInfoAndStatusByUUID`. -/
def statsRecordOfInfo (deviceInfo : DeviceInfo) (deviceStatus : DeviceStatus) : StatsData :=
  { deviceData :=
      { DeviceName := deviceInfo.Name
        UUID := deviceInfo.UUID
        MemoryMiB := deviceInfo.MemoryMiB
        PowerW := deviceInfo.PowerW
        BAR1MiB := deviceInfo.BAR1MiB }
    PowerUsageW := deviceStatus.PowerUsageW
    GPUUtilization := deviceStatus.GPUUtilization
    MemoryUtilization := deviceStatus.MemoryUtilization
    EncoderUtilization := deviceStatus.EncoderUtilization
    DecoderUtilization := deviceStatus.DecoderUtilization
    TemperatureC := deviceStatus.TemperatureC
    UsedMemoryMiB := deviceStatus.UsedMemoryMiB
    BAR1UsedMiB := deviceStatus.BAR1UsedMiB
    ECCErrorsL1Cache := deviceStatus.ECCErrorsL1Cache
    ECCErrorsL2Cache := deviceStatus.ECCErrorsL2Cache
    ECCErrorsDevice := deviceStatus.ECCErrorsDevice }

/-- Comparison used by `slices.SortFunc` in `GetFingerprintData`:
ascending by `UUID`. -/
def fingerprintLE (a b : FingerprintDeviceData) : Prop :=
  a.deviceData.UUID ≤ b.deviceData.UUID

instance : DecidableRel fingerprintLE := fun a b =>
  inferInstanceAs (Decidable (a.deviceData.UUID ≤ b.deviceData.UUID))

instance : IsTotal FingerprintDeviceData fingerprintLE :=
  ⟨fun a b => le_total a.deviceData.UUID b.deviceData.UUID⟩

instance : IsTrans FingerprintDeviceData fingerprintLE :=
  ⟨fun _ _ _ hab hbc => le_trans hab hbc⟩

/-- Comparison used by `slices.SortFunc` in `GetStatsData`: ascending by
`UUID`. -/
def statsLE (a b : StatsData) : Prop :=
  a.deviceData.UUID ≤ b.deviceData.UUID

instance : DecidableRel statsLE := fun a b =>
  inferInstanceAs (Decidable (a.deviceData.UUID ≤ b.deviceData.UUID))

instance : IsTotal StatsData statsLE :=
  ⟨fun a b => le_total a.deviceData.UUID b.deviceData.UUID⟩

instance : IsTrans StatsData statsLE :=
  ⟨fun _ _ _ hab hbc => le_trans hab hbc⟩

/-- The `for uuid, mode := range deviceUUIDs` loop of
`GetFingerprintData`: skips `parent` handles, queries
`DeviceInfoByUUID`, aborts the whole batch on any failure, appends the
assembled record and re-sorts the accumulated slice by UUID (the Go code
calls `slices.SortFunc` inside the loop body). -/
def fingerprintLoop (driver : NvmlDriver) :
    List (String × Mode) → List FingerprintDeviceData →
    Except String (List FingerprintDeviceData)
  | [], allNvidiaGPUResources => .ok allNvidiaGPUResources
  | (uuid, m) :: rest, allNvidiaGPUResources =>
    if m = Mode.parent then
      fingerprintLoop driver rest allNvidiaGPUResources
    else
      match driver.DeviceInfoByUUID uuid with
      | .error e => .error ("nvidia nvml DeviceInfoByUUID() error: " ++ e)
      | .ok deviceInfo =>
        fingerprintLoop driver rest
          (List.insertionSort fingerprintLE
            (allNvidiaGPUResources ++ [fingerprintRecordOfInfo deviceInfo]))

/-- `GetFingerprintData` of `nvml/client.go`: returns `FingerprintData`
for available Nvidia devices, or an error (so never a partial list). -/
def GetFingerprintData (driver : NvmlDriver) : Except String FingerprintData :=
  match driver.SystemDriverVersion with
  | .error e => .error ("nvidia nvml SystemDriverVersion() error: " ++ e)
  | .ok driverVersion =>
    match driver.ListDeviceUUIDs with
    | .error e => .error ("nvidia nvml ListDeviceUUIDs() error: " ++ e)
    | .ok deviceUUIDs =>
      match fingerprintLoop driver deviceUUIDs [] with
      | .error e => .error e
      | .ok allNvidiaGPUResources =>
        .ok { Devices := allNvidiaGPUResources, DriverVersion := driverVersion }

/-- The `for uuid, mode := range deviceUUIDs` loop of `GetStatsData`:
skips `mig` and `parent` handles, queries `DeviceInfoAndStatusByUUID`,
aborts on any failure, appends the record and re-sorts by UUID. -/
def statsLoop (driver : NvmlDriver) :
    List (String × Mode) → List StatsData → Except String (List StatsData)
  | [], allNvidiaGPUStats => .ok allNvidiaGPUStats
  | (uuid, m) :: rest, allNvidiaGPUStats =>
    if m = Mode.mig ∨ m = Mode.parent then
      statsLoop driver rest allNvidiaGPUStats
    else
      match driver.DeviceInfoAndStatusByUUID uuid with
      | .error e => .error ("nvidia nvml DeviceInfoAndStatusByUUID() error: " ++ e)
      | .ok (deviceInfo, deviceStatus) =>
        statsLoop driver rest
          (List.insertionSort statsLE
            (allNvidiaGPUStats ++ [statsRecordOfInfo deviceInfo deviceStatus]))

/-- `GetStatsData` of `nvml/client.go`: returns statistics data for all
devices, or an error (never a partial list). -/
def GetStatsData (driver : NvmlDriver) : Except String (List StatsData) :=
  match driver.ListDeviceUUIDs with
  | .error e => .error ("nvidia nvml ListDeviceUUIDs() error: " ++ e)
  | .ok deviceUUIDs =>
    statsLoop driver deviceUUIDs []

/-! ## The `nvidia` package (spec-modelled)

The implementation files of the `nvidia` package (attribute
normalisation, change detection, exclusion filters) are not present in
the source tree, only their tests.  The definitions below are modelled
from the specification, with every behaviour pinned by the package's
tests. -/

/-- Modelled from the spec: the sentinel string substituted for any
attribute whose source value is absent, exposed as the named constant
`notAvailable` (the implementation file holding the constant is not in
the source tree). -/
def notAvailable : String := "node is configured to skip this attribute"

/-- Modelled from the spec: unit constant of the nomad `structs`
package used by the fingerprint attribute table. -/
def UnitMiB : String := "MiB"

/-- Modelled from the spec: unit constant of the nomad `structs`
package used by the fingerprint attribute table. -/
def UnitW : String := "W"

/-- Modelled from the spec: unit constant of the nomad `structs`
package used by the fingerprint attribute table. -/
def UnitMBPerS : String := "MB/s"

/-- Modelled from the spec: unit constant of the nomad `structs`
package used by the fingerprint attribute table. -/
def UnitMHz : String := "MHz"

/-- Modelled from the spec: the registry of scalar and ratio stats
attributes is a table of fixed (unit, description) string constants; the
values are opaque to every claim, only their pairing matters. -/
def PowerUsageUnit : String := "W"

/-- Modelled from the spec: fixed description constant of the stats
attribute registry. -/
def PowerUsageDesc : String := "Power usage for this GPU and its associated ceiling"

/-- Modelled from the spec: fixed unit constant of the stats registry. -/
def GPUUtilizationUnit : String := "%"

/-- Modelled from the spec: fixed description constant of the stats registry. -/
def GPUUtilizationDesc : String := "GPU utilization"

/-- Modelled from the spec: fixed unit constant of the stats registry. -/
def MemoryUtilizationUnit : String := "%"

/-- Modelled from the spec: fixed description constant of the stats registry. -/
def MemoryUtilizationDesc : String := "Memory utilization"

/-- Modelled from the spec: fixed unit constant of the stats registry. -/
def EncoderUtilizationUnit : String := "%"

/-- Modelled from the spec: fixed description constant of the stats registry. -/
def EncoderUtilizationDesc : String := "Encoder utilization"

/-- Modelled from the spec: fixed unit constant of the stats registry. -/
def DecoderUtilizationUnit : String := "%"

/-- Modelled from the spec: fixed description constant of the stats registry. -/
def DecoderUtilizationDesc : String := "Decoder utilization"

/-- Modelled from the spec: fixed unit constant of the stats registry. -/
def TemperatureUnit : String := "C"

/-- Modelled from the spec: fixed description constant of the stats registry. -/
def TemperatureDesc : String := "Temperature of device"

/-- Modelled from the spec: fixed unit constant of the stats registry. -/
def MemoryStateUnit : String := "MiB"

/-- Modelled from the spec: fixed description constant of the stats registry. -/
def MemoryStateDesc : String := "Memory state of device"

/-- Modelled from the spec: fixed unit constant of the stats registry. -/
def BAR1StateUnit : String := "MiB"

/-- Modelled from the spec: fixed description constant of the stats registry. -/
def BAR1StateDesc : String := "BAR1 state of device"

/-- Modelled from the spec: fixed unit constant of the stats registry. -/
def ECCErrorsL1CacheUnit : String := "errors"

/-- Modelled from the spec: fixed description constant of the stats registry. -/
def ECCErrorsL1CacheDesc : String := "ECC L1 errors of device"

/-- Modelled from the spec: fixed unit constant of the stats registry. -/
def ECCErrorsL2CacheUnit : String := "errors"

/-- Modelled from the spec: fixed description constant of the stats registry. -/
def ECCErrorsL2CacheDesc : String := "ECC L2 errors of device"

/-- Modelled from the spec: fixed unit constant of the stats registry. -/
def ECCErrorsDeviceUnit : String := "errors"

/-- Modelled from the spec: fixed description constant of the stats registry. -/
def ECCErrorsDeviceDesc : String := "ECC memory errors of device"

/-- The nomad `structs.StatValue` shape used by the stats pipeline: a
unit and description, with either a string value or an integer
numerator (and, for ratio attributes, an integer denominator). -/
structure StatValue where
  Unit : String
  Desc : String
  StringVal : Option String
  IntNumeratorVal : Option Int
  IntDenominatorVal : Option Int
  deriving DecidableEq, Repr

/-- A `StatValue` holding the `notAvailable` sentinel for the given
registry (unit, description) pair. -/
def notAvailableStat (u d : String) : StatValue :=
  ⟨u, d, some notAvailable, none, none⟩

/-- A scalar integer `StatValue` for the given registry pair. -/
def intStat (u d : String) (v : Nat) : StatValue :=
  ⟨u, d, none, some (v : Int), none⟩

/-- A numerator/denominator ratio `StatValue` for the given registry
pair. -/
def ratioStat (u d : String) (num den : Nat) : StatValue :=
  ⟨u, d, none, some (num : Int), some (den : Int)⟩

/-- The attribute map of a per-device stats report, with one field per
key of the Go `map[string]*structs.StatValue` (the key set is the fixed
attribute registry). -/
structure StatsAttrs where
  PowerUsageAttr : StatValue
  GPUUtilizationAttr : StatValue
  MemoryUtilizationAttr : StatValue
  EncoderUtilizationAttr : StatValue
  DecoderUtilizationAttr : StatValue
  TemperatureAttr : StatValue
  MemoryStateAttr : StatValue
  BAR1StateAttr : StatValue
  ECCErrorsL1CacheAttr : StatValue
  ECCErrorsL2CacheAttr : StatValue
  ECCErrorsDeviceAttr : StatValue
  deriving DecidableEq, Repr

/-- The nomad `device.DeviceStats` shape: a summary value, the full
attribute map, and the poll timestamp. -/
structure DeviceStats where
  Summary : StatValue
  Stats : StatsAttrs
  Timestamp : Int
  deriving DecidableEq, Repr

/-- Modelled from the spec: `statsForItem` of the `nvidia` package
(its implementation file is not in the source tree).  It normalises one
`StatsData` into a per-device stats report: every absent source field
becomes the `notAvailable` sentinel with the field's registered unit and
description; memory-state and BAR1-state are used/total ratios; power
usage is likewise a ratio of `PowerUsageW` over the `PowerW` ceiling,
as pinned by `TestStatsForItem` (an attribute with an
`IntDenominatorVal` when all fields are present, and the sentinel when
either `PowerUsageW` or `PowerW` is nil); the summary is the
memory-state attribute. -/
def statsForItem (statsItem : StatsData) (timestamp : Int) : DeviceStats :=
  let powerUsageAttr :=
    match statsItem.PowerUsageW, statsItem.deviceData.PowerW with
    | some usage, some ceiling => ratioStat PowerUsageUnit PowerUsageDesc usage ceiling
    | _, _ => notAvailableStat PowerUsageUnit PowerUsageDesc
  let gpuUtilizationAttr :=
    match statsItem.GPUUtilization with
    | some v => intStat GPUUtilizationUnit GPUUtilizationDesc v
    | none => notAvailableStat GPUUtilizationUnit GPUUtilizationDesc
  let memoryUtilizationAttr :=
    match statsItem.MemoryUtilization with
    | some v => intStat MemoryUtilizationUnit MemoryUtilizationDesc v
    | none => notAvailableStat MemoryUtilizationUnit MemoryUtilizationDesc
  let encoderUtilizationAttr :=
    match statsItem.EncoderUtilization with
    | some v => intStat EncoderUtilizationUnit EncoderUtilizationDesc v
    | none => notAvailableStat EncoderUtilizationUnit EncoderUtilizationDesc
  let decoderUtilizationAttr :=
    match statsItem.DecoderUtilization with
    | some v => intStat DecoderUtilizationUnit DecoderUtilizationDesc v
    | none => notAvailableStat DecoderUtilizationUnit DecoderUtilizationDesc
  let temperatureAttr :=
    match statsItem.TemperatureC with
    | some v => intStat TemperatureUnit TemperatureDesc v
    | none => notAvailableStat TemperatureUnit TemperatureDesc
  let memoryStateAttr :=
    match statsItem.UsedMemoryMiB, statsItem.deviceData.MemoryMiB with
    | some used, some total => ratioStat MemoryStateUnit MemoryStateDesc used total
    | _, _ => notAvailableStat MemoryStateUnit MemoryStateDesc
  let bar1StateAttr :=
    match statsItem.BAR1UsedMiB, statsItem.deviceData.BAR1MiB with
    | some used, some total => ratioStat BAR1StateUnit BAR1StateDesc used total
    | _, _ => notAvailableStat BAR1StateUnit BAR1StateDesc
  let eccErrorsL1CacheAttr :=
    match statsItem.ECCErrorsL1Cache with
    | some v => intStat ECCErrorsL1CacheUnit ECCErrorsL1CacheDesc v
    | none => notAvailableStat ECCErrorsL1CacheUnit ECCErrorsL1CacheDesc
  let eccErrorsL2CacheAttr :=
    match statsItem.ECCErrorsL2Cache with
    | some v => intStat ECCErrorsL2CacheUnit ECCErrorsL2CacheDesc v
    | none => notAvailableStat ECCErrorsL2CacheUnit ECCErrorsL2CacheDesc
  let eccErrorsDeviceAttr :=
    match statsItem.ECCErrorsDevice with
    | some v => intStat ECCErrorsDeviceUnit ECCErrorsDeviceDesc v
    | none => notAvailableStat ECCErrorsDeviceUnit ECCErrorsDeviceDesc
  { Summary := memoryStateAttr
    Stats :=
      { PowerUsageAttr := powerUsageAttr
        GPUUtilizationAttr := gpuUtilizationAttr
        MemoryUtilizationAttr := memoryUtilizationAttr
        EncoderUtilizationAttr := encoderUtilizationAttr
        DecoderUtilizationAttr := decoderUtilizationAttr
        TemperatureAttr := temperatureAttr
        MemoryStateAttr := memoryStateAttr
        BAR1StateAttr := bar1StateAttr
        ECCErrorsL1CacheAttr := eccErrorsL1CacheAttr
        ECCErrorsL2CacheAttr := eccErrorsL2CacheAttr
        ECCErrorsDeviceAttr := eccErrorsDeviceAttr }
    Timestamp := timestamp }

/-- The nomad `structs.Attribute` shape used by the fingerprint
attribute table: a unit together with either an integer or a string
value.  The Go field names `Int` and `String` are kept; `Unit` is
declared first so that later field types still denote the builtin
types. -/
structure Attribute where
  Unit : String
  Int : Option Int
  String : Option String
  deriving DecidableEq, Repr

/-- The fingerprint attribute map produced by
`attributesFromFingerprintDeviceData`, one field per key of the Go
`map[string]*structs.Attribute`.  A numeric attribute whose source field
is absent is omitted from the map, so those fields are `Option`; the
display-state and persistence-mode strings are always present. -/
structure FingerprintAttrs where
  MemoryAttr : Option Attribute
  PowerAttr : Option Attribute
  BAR1Attr : Option Attribute
  PCIBandwidthAttr : Option Attribute
  CoresClockAttr : Option Attribute
  MemoryClockAttr : Option Attribute
  DisplayStateAttr : Attribute
  PersistenceModeAttr : Attribute
  deriving DecidableEq, Repr

/-- Modelled from the spec: `attributesFromFingerprintDeviceData` of the
`nvidia` package (its implementation file is not in the source tree).
It converts one `FingerprintDeviceData` into the fingerprint attribute
map; as pinned by `TestAttributesFromFingerprintDeviceData`
("nil values are omitted"), an absent numeric source field yields no
attribute at all, while present fields become typed values with the
fixed units of the nomad `structs` package. -/
def attributesFromFingerprintDeviceData (d : FingerprintDeviceData) : FingerprintAttrs :=
  { MemoryAttr :=
      (d.deviceData.MemoryMiB).map fun v => ⟨UnitMiB, some (v : Int), none⟩
    PowerAttr :=
      (d.deviceData.PowerW).map fun v => ⟨UnitW, some (v : Int), none⟩
    BAR1Attr :=
      (d.deviceData.BAR1MiB).map fun v => ⟨UnitMiB, some (v : Int), none⟩
    PCIBandwidthAttr :=
      (d.PCIBandwidthMBPerS).map fun v => ⟨UnitMBPerS, some (v : Int), none⟩
    CoresClockAttr :=
      (d.CoresClockMHz).map fun v => ⟨UnitMHz, some (v : Int), none⟩
    MemoryClockAttr :=
      (d.MemoryClockMHz).map fun v => ⟨UnitMHz, some (v : Int), none⟩
    DisplayStateAttr := ⟨"", none, some d.DisplayState⟩
    PersistenceModeAttr := ⟨"", none, some d.PersistenceMode⟩ }

/-- The fingerprint-session state of the `nvidia` package: the set of
device UUIDs observed by the previous fingerprint poll. -/
structure NvidiaDevice where
  devices : Finset String

/-- Modelled from the spec: `fingerprintChanged` of the `nvidia` package
(its implementation file is not in the source tree).  It computes the
set of UUIDs of the new fingerprint records and reports a change when
that set's size differs from the tracked set's size or some new UUID is
absent from the tracked set; as a side effect the tracked set is
replaced by the new set.  The Go method mutates its receiver; the model
returns the flag together with the updated state. -/
def fingerprintChanged (d : NvidiaDevice) (allDevices : List FingerprintDeviceData) :
    Bool × NvidiaDevice :=
  let uuids := (allDevices.map fun dev => dev.deviceData.UUID).toFinset
  (decide (uuids.card ≠ d.devices.card ∨ ∃ u ∈ uuids, u ∉ d.devices),
    { devices := uuids })

/-- Modelled from the spec: `ignoreFingerprintedDevices` of the `nvidia`
package (its implementation file is not in the source tree).  It walks
the fingerprint records in order and appends to the result every record
whose UUID is not in the operator's exclusion set, returning an empty
result (not an error) when every record is excluded, as pinned by
`TestIgnoreFingerprintedDevices`. -/
def ignoreFingerprintedDevices (deviceData : List FingerprintDeviceData)
    (ignoredGPUIDs : Finset String) : List FingerprintDeviceData :=
  deviceData.foldl
    (fun result dev =>
      if dev.deviceData.UUID ∈ ignoredGPUIDs then result else result ++ [dev])
    []

/-- Modelled from the spec: `filterStatsByID` of the `nvidia` package
(its implementation file is not in the source tree).  It walks the stats
records in order and keeps exactly those whose UUID is a member of the
given allow-list of IDs, as pinned by `TestFilterStatsByID`. -/
def filterStatsByID (stats : List StatsData) (ids : Finset String) : List StatsData :=
  stats.foldl
    (fun filteredStats statsItem =>
      if statsItem.deviceData.UUID ∈ ids then filteredStats ++ [statsItem]
      else filteredStats)
    []

/-! ## The Linux nvml driver (`nvml/driver_linux.go`) -/

/-- Return codes of the native nvml binding that
`nvml/driver_linux.go` distinguishes. -/
inductive NvmlReturn where
  | success
  | errorNotSupported
  | errorNotFound
  | errorInvalidArgument
  | errorUnknown
  deriving DecidableEq, Repr

/-- The `nvml.Memory` payload of `DeviceGetMemoryInfo` (byte counts). -/
structure Memory where
  Total : Nat
  Used : Nat
  deriving DecidableEq, Repr

/-- The `nvml.BAR1Memory` payload of `DeviceGetBAR1MemoryInfo` (byte
counts). -/
structure BAR1Memory where
  Bar1Total : Nat
  Bar1Used : Nat
  deriving DecidableEq, Repr

/-- The clock selector of `DeviceGetClockInfo` (`CLOCK_GRAPHICS` or
`CLOCK_MEM`). -/
inductive ClockType where
  | graphics
  | mem
  deriving DecidableEq, Repr

/-- The native nvml binding as seen by `DeviceInfoByUUID` of
`nvml/driver_linux.go`: each query returns a payload together with a
return code.  Device handles are modelled as natural numbers; the
display-mode and persistence-mode payloads are modelled as the strings
the Go code renders them to. -/
structure Nvml where
  DeviceGetHandleByUUID : String → Nat × NvmlReturn
  DeviceGetName : Nat → String × NvmlReturn
  DeviceGetMemoryInfo : Nat → Memory × NvmlReturn
  DeviceGetDeviceHandleFromMigDeviceHandle : Nat → Nat × NvmlReturn
  DeviceGetPowerUsage : Nat → Nat × NvmlReturn
  DeviceGetBAR1MemoryInfo : Nat → BAR1Memory × NvmlReturn
  DeviceGetPciInfo : Nat → List Nat × NvmlReturn
  DeviceGetMaxPcieLinkWidth : Nat → Nat × NvmlReturn
  DeviceGetMaxPcieLinkGeneration : Nat → Nat × NvmlReturn
  DeviceGetClockInfo : Nat → ClockType → Nat × NvmlReturn
  DeviceGetDisplayMode : Nat → String × NvmlReturn
  DeviceGetPersistenceMode : Nat → String × NvmlReturn

/-- `bytesToMegabytes` of `nvml/driver_linux.go`. -/
def bytesToMegabytes (size : Nat) : Nat :=
  size / (1 <<< 20)

/-- `buildID` of `nvml/driver_linux.go`: renders the PCI bus id byte
array as a string. -/
def buildID (id : List Nat) : String :=
  String.mk (id.map fun b => Char.ofNat b)

/-- The device handle on which `DeviceInfoByUUID` performs the queries
after the MIG-parent redirect: the parent handle when
`DeviceGetDeviceHandleFromMigDeviceHandle` succeeds, the original
handle when the device is not a MIG device. -/
def effectiveDevice (lib : Nvml) (device : Nat) : Nat :=
  let parentR := lib.DeviceGetDeviceHandleFromMigDeviceHandle device
  if parentR.2 = NvmlReturn.errorNotFound ∨ parentR.2 = NvmlReturn.errorInvalidArgument then
    device
  else
    parentR.1

/-- `DeviceInfoByUUID` of `nvml/driver_linux.go`: queries the native
binding for one GPU's static data, failing on any unexpected return
code; the power, link-width and link-generation queries tolerate
`ERROR_NOT_SUPPORTED` by substituting zero. -/
def DeviceInfoByUUID (lib : Nvml) (uuid : String) : Except String DeviceInfo :=
  let handleR := lib.DeviceGetHandleByUUID uuid
  if handleR.2 ≠ NvmlReturn.success then .error "failed to get device handle" else
  let nameR := lib.DeviceGetName handleR.1
  if nameR.2 ≠ NvmlReturn.success then .error "failed to get device name" else
  let memoryR := lib.DeviceGetMemoryInfo handleR.1
  if memoryR.2 ≠ NvmlReturn.success then .error "failed to get device memory info" else
  let memoryTotal := bytesToMegabytes memoryR.1.Total
  let parentR := lib.DeviceGetDeviceHandleFromMigDeviceHandle handleR.1
  if parentR.2 ≠ NvmlReturn.errorNotFound ∧ parentR.2 ≠ NvmlReturn.errorInvalidArgument ∧
      parentR.2 ≠ NvmlReturn.success then
    .error "failed to get device parent device handle"
  else
  let device := effectiveDevice lib handleR.1
  let powerR := lib.DeviceGetPowerUsage device
  if powerR.2 ≠ NvmlReturn.success ∧ powerR.2 ≠ NvmlReturn.errorNotSupported then
    .error "failed to get device power info"
  else
  let power := if powerR.2 = NvmlReturn.errorNotSupported then 0 else powerR.1
  let powerU := power / 1000
  let bar1R := lib.DeviceGetBAR1MemoryInfo device
  if bar1R.2 ≠ NvmlReturn.success then .error "failed to get device bar 1 memory info" else
  let bar1total := bytesToMegabytes bar1R.1.Bar1Total
  let pciR := lib.DeviceGetPciInfo device
  if pciR.2 ≠ NvmlReturn.success then .error "failed to get device pci info" else
  let linkWidthR := lib.DeviceGetMaxPcieLinkWidth device
  if linkWidthR.2 ≠ NvmlReturn.success ∧ linkWidthR.2 ≠ NvmlReturn.errorNotSupported then
    .error "failed to get pcie link width"
  else
  let linkWidth := if linkWidthR.2 = NvmlReturn.errorNotSupported then 0 else linkWidthR.1
  let linkGenerationR := lib.DeviceGetMaxPcieLinkGeneration device
  if linkGenerationR.2 ≠ NvmlReturn.success ∧ linkGenerationR.2 ≠ NvmlReturn.errorNotSupported then
    .error "failed to get pcie link generation"
  else
  let linkGeneration := if linkGenerationR.2 = NvmlReturn.errorNotSupported then 0
    else linkGenerationR.1
  let bandwidth : Nat :=
    match linkGeneration with
    | 6 => linkWidth * (4 <<< 10)
    | 5 => linkWidth * (3 <<< 10)
    | 4 => linkWidth * (2 <<< 10)
    | 3 => linkWidth * (1 <<< 10)
    | _ => 0
  let busID := buildID pciR.1
  let coreClockR := lib.DeviceGetClockInfo device ClockType.graphics
  if coreClockR.2 ≠ NvmlReturn.success then .error "failed to get device core clock" else
  let memClockR := lib.DeviceGetClockInfo device ClockType.mem
  if memClockR.2 ≠ NvmlReturn.success then .error "failed to get device mem clock" else
  let displayModeR := lib.DeviceGetDisplayMode device
  if displayModeR.2 ≠ NvmlReturn.success then .error "failed to get device display mode" else
  let persistenceR := lib.DeviceGetPersistenceMode device
  if persistenceR.2 ≠ NvmlReturn.success then .error "failed to get device persistence mode" else
  .ok { UUID := uuid
        Name := some nameR.1
        MemoryMiB := some memoryTotal
        PowerW := some powerU
        BAR1MiB := some bar1total
        PCIBandwidthMBPerS := some bandwidth
        PCIBusID := busID
        CoresClockMHz := some coreClockR.1
        MemoryClockMHz := some memClockR.1
        DisplayState := displayModeR.1
        PersistenceMode := persistenceR.1 }

/-! ## Helper lemmas -/

/-- A fold that conditionally appends to its accumulator computes the
accumulator followed by a filter of the input. -/
theorem foldl_append_if_eq_filter {α : Type} (p : α → Bool) :
    ∀ (l acc : List α),
      l.foldl (fun r x => if p x then r ++ [x] else r) acc = acc ++ l.filter p
  | [], acc => by simp
  | x :: l, acc => by
    by_cases hx : p x = true
    · simp [List.foldl_cons, hx, foldl_append_if_eq_filter p l (acc ++ [x])]
    · simp only [Bool.not_eq_true] at hx
      simp [List.foldl_cons, hx, foldl_append_if_eq_filter p l acc]

/-- Two UUID-sorted lists that are permutations of each other and whose
keys are free of duplicates are equal. -/
theorem eq_of_perm_of_sorted_on_key {α : Type} (key : α → String) {l₁ l₂ : List α}
    (hp : l₁.Perm l₂)
    (hs₁ : List.Sorted (fun a b => key a ≤ key b) l₁)
    (hs₂ : List.Sorted (fun a b => key a ≤ key b) l₂)
    (hn : (l₁.map key).Nodup) : l₁ = l₂ := by
  haveI : IsAntisymm α (fun a b => key a < key b) :=
    ⟨fun a b h₁ h₂ => absurd h₁ (lt_asymm h₂)⟩
  have hn₂ : (l₂.map key).Nodup := (hp.map key).nodup hn
  have hd₁ : l₁.Pairwise fun a b => key a ≠ key b := List.pairwise_map.mp hn
  have hd₂ : l₂.Pairwise fun a b => key a ≠ key b := List.pairwise_map.mp hn₂
  have hs₁' : List.Sorted (fun a b => key a < key b) l₁ :=
    (hs₁.and hd₁).imp fun h => lt_of_le_of_ne h.1 h.2
  have hs₂' : List.Sorted (fun a b => key a < key b) l₂ :=
    (hs₂.and hd₂).imp fun h => lt_of_le_of_ne h.1 h.2
  exact List.eq_of_perm_of_sorted hp hs₁' hs₂'


/-- When every `DeviceInfoByUUID` query succeeds, the fingerprint loop
succeeds, its result is a permutation of the records of the non-parent
entries appended to the accumulator, and it preserves sortedness of the
accumulator. -/
theorem fingerprintLoop_ok_of_total (driver : NvmlDriver) (infos : String → DeviceInfo)
    (hinfo : ∀ u, driver.DeviceInfoByUUID u = .ok (infos u)) :
    ∀ (entries : List (String × Mode)) (acc : List FingerprintDeviceData),
      ∃ res, fingerprintLoop driver entries acc = .ok res ∧
        res.Perm (acc ++ (entries.filter fun p => decide (p.2 ≠ Mode.parent)).map
          fun p => fingerprintRecordOfInfo (infos p.1)) ∧
        (List.Sorted fingerprintLE acc → List.Sorted fingerprintLE res)
  | [], acc => ⟨acc, rfl, by simp, fun h => h⟩
  | (uuid, m) :: rest, acc => by
    by_cases hm : m = Mode.parent
    · obtain ⟨res, h1, h2, h3⟩ := fingerprintLoop_ok_of_total driver infos hinfo rest acc
      have hf : List.filter (fun p => decide (p.2 ≠ Mode.parent)) ((uuid, m) :: rest)
          = List.filter (fun p => decide (p.2 ≠ Mode.parent)) rest := by
        simp [List.filter_cons, hm]
      refine ⟨res, ?_, ?_, h3⟩
      · simpa [fingerprintLoop, hm] using h1
      · rw [hf]; exact h2
    · obtain ⟨res, h1, h2, h3⟩ := fingerprintLoop_ok_of_total driver infos hinfo rest
        (List.insertionSort fingerprintLE
          (acc ++ [fingerprintRecordOfInfo (infos uuid)]))
      have hf : List.filter (fun p => decide (p.2 ≠ Mode.parent)) ((uuid, m) :: rest)
          = (uuid, m) :: List.filter (fun p => decide (p.2 ≠ Mode.parent)) rest := by
        simp [List.filter_cons, hm]
      refine ⟨res, ?_, ?_, fun _ => h3 (List.sorted_insertionSort _ _)⟩
      · simpa [fingerprintLoop, hm, hinfo uuid] using h1
      · have hsort :
            (List.insertionSort fingerprintLE
              (acc ++ [fingerprintRecordOfInfo (infos uuid)])).Perm
            (acc ++ [fingerprintRecordOfInfo (infos uuid)]) :=
          List.perm_insertionSort _ _
        have h4 := h2.trans (hsort.append_right _)
        rw [hf, List.map_cons]
        simpa [List.append_assoc] using h4

/-- When every `DeviceInfoAndStatusByUUID` query succeeds, the stats
loop succeeds, its result is a permutation of the records of the
`normal` entries appended to the accumulator, and it preserves
sortedness of the accumulator. -/
theorem statsLoop_ok_of_total (driver : NvmlDriver) (infos : String → DeviceInfo)
    (statuses : String → DeviceStatus)
    (hinfo : ∀ u, driver.DeviceInfoAndStatusByUUID u = .ok (infos u, statuses u)) :
    ∀ (entries : List (String × Mode)) (acc : List StatsData),
      ∃ res, statsLoop driver entries acc = .ok res ∧
        res.Perm (acc ++
          (entries.filter fun p => decide (¬(p.2 = Mode.mig ∨ p.2 = Mode.parent))).map
            fun p => statsRecordOfInfo (infos p.1) (statuses p.1)) ∧
        (List.Sorted statsLE acc → List.Sorted statsLE res)
  | [], acc => ⟨acc, rfl, by simp, fun h => h⟩
  | (uuid, m) :: rest, acc => by
    by_cases hm : m = Mode.mig ∨ m = Mode.parent
    · obtain ⟨res, h1, h2, h3⟩ := statsLoop_ok_of_total driver infos statuses hinfo rest acc
      have hf : List.filter (fun p => decide (¬(p.2 = Mode.mig ∨ p.2 = Mode.parent)))
            ((uuid, m) :: rest)
          = List.filter (fun p => decide (¬(p.2 = Mode.mig ∨ p.2 = Mode.parent))) rest := by
        rcases hm with h | h <;> simp [List.filter_cons, h]
      refine ⟨res, ?_, ?_, h3⟩
      · simpa [statsLoop, hm] using h1
      · rw [hf]; exact h2
    · obtain ⟨res, h1, h2, h3⟩ := statsLoop_ok_of_total driver infos statuses hinfo rest
        (List.insertionSort statsLE
          (acc ++ [statsRecordOfInfo (infos uuid) (statuses uuid)]))
      have hm' := not_or.mp hm
      have hf : List.filter (fun p => decide (¬(p.2 = Mode.mig ∨ p.2 = Mode.parent)))
            ((uuid, m) :: rest)
          = (uuid, m) ::
            List.filter (fun p => decide (¬(p.2 = Mode.mig ∨ p.2 = Mode.parent))) rest := by
        simp [List.filter_cons, hm'.1, hm'.2]
      refine ⟨res, ?_, ?_, fun _ => h3 (List.sorted_insertionSort _ _)⟩
      · simpa [statsLoop, hm, hinfo uuid] using h1
      · have hsort :
            (List.insertionSort statsLE
              (acc ++ [statsRecordOfInfo (infos uuid) (statuses uuid)])).Perm
            (acc ++ [statsRecordOfInfo (infos uuid) (statuses uuid)]) :=
          List.perm_insertionSort _ _
        have h4 := h2.trans (hsort.append_right _)
        rw [hf, List.map_cons]
        simpa [List.append_assoc] using h4

/-- If any non-parent entry's `DeviceInfoByUUID` query fails, the whole
fingerprint loop fails, whatever the accumulator holds. -/
theorem fingerprintLoop_error_of_mem (driver : NvmlDriver) {uuid : String} {m : Mode}
    {e : String} (hm : m ≠ Mode.parent)
    (he : driver.DeviceInfoByUUID uuid = .error e) :
    ∀ (entries : List (String × Mode)) (acc : List FingerprintDeviceData),
      (uuid, m) ∈ entries → ∃ msg, fingerprintLoop driver entries acc = .error msg
  | [], _, hmem => absurd hmem (List.not_mem_nil _)
  | (v, n) :: rest, acc, hmem => by
    rcases List.mem_cons.mp hmem with hhead | htail
    · obtain ⟨hv, hn⟩ := Prod.mk.injEq .. ▸ hhead
      subst hv; subst hn
      exact ⟨"nvidia nvml DeviceInfoByUUID() error: " ++ e, by simp [fingerprintLoop, hm, he]⟩
    · by_cases hn : n = Mode.parent
      · obtain ⟨msg, hmsg⟩ := fingerprintLoop_error_of_mem driver hm he rest acc htail
        exact ⟨msg, by simpa [fingerprintLoop, hn] using hmsg⟩
      · match hq : driver.DeviceInfoByUUID v with
        | .error e' =>
          exact ⟨"nvidia nvml DeviceInfoByUUID() error: " ++ e',
            by simp [fingerprintLoop, hn, hq]⟩
        | .ok deviceInfo =>
          obtain ⟨msg, hmsg⟩ := fingerprintLoop_error_of_mem driver hm he rest
            (List.insertionSort fingerprintLE
              (acc ++ [fingerprintRecordOfInfo deviceInfo])) htail
          exact ⟨msg, by simpa [fingerprintLoop, hn, hq] using hmsg⟩

/-- If any `normal` entry's `DeviceInfoAndStatusByUUID` query fails, the
whole stats loop fails, whatever the accumulator holds. -/
theorem statsLoop_error_of_mem (driver : NvmlDriver) {uuid : String} {m : Mode}
    {e : String} (hm : ¬(m = Mode.mig ∨ m = Mode.parent))
    (he : driver.DeviceInfoAndStatusByUUID uuid = .error e) :
    ∀ (entries : List (String × Mode)) (acc : List StatsData),
      (uuid, m) ∈ entries → ∃ msg, statsLoop driver entries acc = .error msg
  | [], _, hmem => absurd hmem (List.not_mem_nil _)
  | (v, n) :: rest, acc, hmem => by
    rcases List.mem_cons.mp hmem with hhead | htail
    · obtain ⟨hv, hn⟩ := Prod.mk.injEq .. ▸ hhead
      subst hv; subst hn
      exact ⟨"nvidia nvml DeviceInfoAndStatusByUUID() error: " ++ e,
        by simp [statsLoop, hm, he]⟩
    · by_cases hn : n = Mode.mig ∨ n = Mode.parent
      · obtain ⟨msg, hmsg⟩ := statsLoop_error_of_mem driver hm he rest acc htail
        exact ⟨msg, by simpa [statsLoop, hn] using hmsg⟩
      · match hq : driver.DeviceInfoAndStatusByUUID v with
        | .error e' =>
          exact ⟨"nvidia nvml DeviceInfoAndStatusByUUID() error: " ++ e',
            by simp [statsLoop, hn, hq]⟩
        | .ok (deviceInfo, deviceStatus) =>
          obtain ⟨msg, hmsg⟩ := statsLoop_error_of_mem driver hm he rest
            (List.insertionSort statsLE
              (acc ++ [statsRecordOfInfo deviceInfo deviceStatus])) htail
          exact ⟨msg, by simpa [statsLoop, hn, hq] using hmsg⟩

/-! ## Claim theorems for the client pipelines -/

/-- C1: for every device map, `PartitionParent` (`parent`) handles yield
a record in neither pipeline, `Partition` (`mig`) handles yield a record
in the fingerprint output but not in the stats output, and `Standalone`
(`normal`) handles yield records in both: the fingerprint output is
exactly (up to the UUID sort) the records of the non-`parent` entries,
and the stats output exactly those of the `normal` entries. -/
theorem client_classification_filters (driver : NvmlDriver) (version : String)
    (entries : List (String × Mode)) (infos : String → DeviceInfo)
    (statuses : String → DeviceStatus)
    (hv : driver.SystemDriverVersion = .ok version)
    (hl : driver.ListDeviceUUIDs = .ok entries)
    (hinfo : ∀ u, driver.DeviceInfoByUUID u = .ok (infos u))
    (hstat : ∀ u, driver.DeviceInfoAndStatusByUUID u = .ok (infos u, statuses u)) :
    ∃ fd sd, GetFingerprintData driver = .ok fd ∧ GetStatsData driver = .ok sd ∧
      fd.Devices.Perm
        ((entries.filter fun p => decide (p.2 ≠ Mode.parent)).map
          fun p => fingerprintRecordOfInfo (infos p.1)) ∧
      sd.Perm
        ((entries.filter fun p => decide (p.2 = Mode.normal)).map
          fun p => statsRecordOfInfo (infos p.1) (statuses p.1)) := by
  obtain ⟨resF, h1, h2, _⟩ := fingerprintLoop_ok_of_total driver infos hinfo entries []
  obtain ⟨resS, h4, h5, _⟩ := statsLoop_ok_of_total driver infos statuses hstat entries []
  have hnormal : (entries.filter fun p => decide (¬(p.2 = Mode.mig ∨ p.2 = Mode.parent)))
      = entries.filter fun p => decide (p.2 = Mode.normal) := by
    apply List.filter_congr
    rintro ⟨u, mm⟩ _
    cases mm <;> simp
  refine ⟨⟨resF, version⟩, resS, ?_, ?_, ?_, ?_⟩
  · simp [GetFingerprintData, hv, hl, h1]
  · simp [GetStatsData, hl, h4]
  · simpa using h2
  · rw [← hnormal]
    simpa using h5

/-- Witness for C1 on a concrete three-device map holding one handle of
each classification. -/
def infosW : String → DeviceInfo := fun u =>
  { UUID := u
    PCIBusID := "bus-" ++ u
    DisplayState := "Enabled"
    PersistenceMode := "Enabled"
    Name := some "TypeA"
    MemoryMiB := some 16
    PowerW := some 250
    BAR1MiB := some 256
    PCIBandwidthMBPerS := some 1
    CoresClockMHz := some 1
    MemoryClockMHz := some 1 }

/-- Concrete device statuses used by the witnesses. -/
def statusesW : String → DeviceStatus := fun _ =>
  { PowerUsageW := some 1
    TemperatureC := some 1
    GPUUtilization := some 1
    MemoryUtilization := some 1
    EncoderUtilization := some 1
    DecoderUtilization := some 1
    BAR1UsedMiB := some 1
    UsedMemoryMiB := some 1
    ECCErrorsL1Cache := some 0
    ECCErrorsL2Cache := some 0
    ECCErrorsDevice := some 0
    ECCErrorsRegisterFile := some 0 }

/-- A concrete device map with one `normal`, one `mig` and one `parent`
handle. -/
def entriesW : List (String × Mode) :=
  [("uuid-a", Mode.normal), ("uuid-b", Mode.mig), ("uuid-c", Mode.parent)]

/-- A concrete driver over `entriesW` whose per-device queries all
succeed. -/
def driverW : NvmlDriver :=
  { SystemDriverVersion := .ok "driver-1"
    ListDeviceUUIDs := .ok entriesW
    DeviceInfoByUUID := fun u => .ok (infosW u)
    DeviceInfoAndStatusByUUID := fun u => .ok (infosW u, statusesW u) }

theorem client_classification_filters_witness :
    ∃ fd sd, GetFingerprintData driverW = .ok fd ∧ GetStatsData driverW = .ok sd ∧
      fd.Devices.Perm
        ((entriesW.filter fun p => decide (p.2 ≠ Mode.parent)).map
          fun p => fingerprintRecordOfInfo (infosW p.1)) ∧
      sd.Perm
        ((entriesW.filter fun p => decide (p.2 = Mode.normal)).map
          fun p => statsRecordOfInfo (infosW p.1) (statusesW p.1)) :=
  client_classification_filters driverW "driver-1" entriesW infosW statusesW
    rfl rfl (fun _ => rfl) (fun _ => rfl)

/-- C2: a single per-device query failure on a non-excluded handle fails
the entire batch: if `DeviceInfoByUUID` fails for a non-`parent` entry
then `GetFingerprintData` returns an error (no partial list), and if
`DeviceInfoAndStatusByUUID` fails for a `normal` entry then
`GetStatsData` returns an error. -/
theorem client_batch_error_propagation (driver : NvmlDriver)
    (entries : List (String × Mode))
    (hl : driver.ListDeviceUUIDs = .ok entries) :
    (∀ uuid m e, (uuid, m) ∈ entries → m ≠ Mode.parent →
      driver.DeviceInfoByUUID uuid = .error e →
      ∃ msg, GetFingerprintData driver = .error msg) ∧
    (∀ uuid m e, (uuid, m) ∈ entries → ¬(m = Mode.mig ∨ m = Mode.parent) →
      driver.DeviceInfoAndStatusByUUID uuid = .error e →
      ∃ msg, GetStatsData driver = .error msg) := by
  constructor
  · intro uuid m e hmem hm he
    match hv : driver.SystemDriverVersion with
    | .error ev =>
      exact ⟨"nvidia nvml SystemDriverVersion() error: " ++ ev,
        by simp [GetFingerprintData, hv]⟩
    | .ok v =>
      obtain ⟨msg, hmsg⟩ := fingerprintLoop_error_of_mem driver hm he entries [] hmem
      exact ⟨msg, by simp [GetFingerprintData, hv, hl, hmsg]⟩
  · intro uuid m e hmem hm he
    obtain ⟨msg, hmsg⟩ := statsLoop_error_of_mem driver hm he entries [] hmem
    exact ⟨msg, by simp [GetStatsData, hl, hmsg]⟩

/-- A concrete driver whose only device fails both per-device queries. -/
def driverErrW : NvmlDriver :=
  { SystemDriverVersion := .ok "driver-1"
    ListDeviceUUIDs := .ok [("uuid-bad", Mode.normal)]
    DeviceInfoByUUID := fun _ => .error "query failed"
    DeviceInfoAndStatusByUUID := fun _ => .error "query failed" }

theorem client_batch_error_propagation_witness :
    (∃ msg, GetFingerprintData driverErrW = .error msg) ∧
    (∃ msg, GetStatsData driverErrW = .error msg) :=
  ⟨(client_batch_error_propagation driverErrW [("uuid-bad", Mode.normal)] rfl).1
      "uuid-bad" Mode.normal "query failed" (by simp) (by decide) rfl,
    (client_batch_error_propagation driverErrW [("uuid-bad", Mode.normal)] rfl).2
      "uuid-bad" Mode.normal "query failed" (by simp) (by decide) rfl⟩

/-- C3: the record lists of both pipelines are sorted ascending by UUID,
and over the same underlying device data (same driver version, same
per-device answers, the device map iterated in any two orders, with
distinct record UUIDs) the two calls produce identical output. -/
theorem client_output_deterministic_sorted
    (d₁ d₂ : NvmlDriver) (version : String)
    (e₁ e₂ : List (String × Mode)) (infos : String → DeviceInfo)
    (statuses : String → DeviceStatus)
    (hv₁ : d₁.SystemDriverVersion = .ok version)
    (hv₂ : d₂.SystemDriverVersion = .ok version)
    (hl₁ : d₁.ListDeviceUUIDs = .ok e₁)
    (hl₂ : d₂.ListDeviceUUIDs = .ok e₂)
    (hi₁ : ∀ u, d₁.DeviceInfoByUUID u = .ok (infos u))
    (hi₂ : ∀ u, d₂.DeviceInfoByUUID u = .ok (infos u))
    (hq₁ : ∀ u, d₁.DeviceInfoAndStatusByUUID u = .ok (infos u, statuses u))
    (hq₂ : ∀ u, d₂.DeviceInfoAndStatusByUUID u = .ok (infos u, statuses u))
    (hperm : e₁.Perm e₂)
    (hnodupF : ((e₁.filter fun p => decide (p.2 ≠ Mode.parent)).map
      fun p => (infos p.1).UUID).Nodup)
    (hnodupS : ((e₁.filter fun p => decide (¬(p.2 = Mode.mig ∨ p.2 = Mode.parent))).map
      fun p => (infos p.1).UUID).Nodup) :
    GetFingerprintData d₁ = GetFingerprintData d₂ ∧
    GetStatsData d₁ = GetStatsData d₂ ∧
    (∀ fd, GetFingerprintData d₁ = .ok fd → List.Sorted fingerprintLE fd.Devices) ∧
    (∀ sd, GetStatsData d₁ = .ok sd → List.Sorted statsLE sd) := by
  obtain ⟨resF₁, hf1, hf2, hf3⟩ := fingerprintLoop_ok_of_total d₁ infos hi₁ e₁ []
  obtain ⟨resF₂, hg1, hg2, hg3⟩ := fingerprintLoop_ok_of_total d₂ infos hi₂ e₂ []
  obtain ⟨resS₁, hu1, hu2, hu3⟩ := statsLoop_ok_of_total d₁ infos statuses hq₁ e₁ []
  obtain ⟨resS₂, ht1, ht2, ht3⟩ := statsLoop_ok_of_total d₂ infos statuses hq₂ e₂ []
  simp only [List.nil_append] at hf2 hg2 hu2 ht2
  have hsF₁ : List.Sorted fingerprintLE resF₁ := hf3 (by simp)
  have hsF₂ : List.Sorted fingerprintLE resF₂ := hg3 (by simp)
  have hsS₁ : List.Sorted statsLE resS₁ := hu3 (by simp)
  have hsS₂ : List.Sorted statsLE resS₂ := ht3 (by simp)
  have hmapF : ((e₁.filter fun p => decide (p.2 ≠ Mode.parent)).map
        fun p => fingerprintRecordOfInfo (infos p.1)).Perm
      ((e₂.filter fun p => decide (p.2 ≠ Mode.parent)).map
        fun p => fingerprintRecordOfInfo (infos p.1)) :=
    (hperm.filter _).map _
  have hmapS : ((e₁.filter fun p => decide (¬(p.2 = Mode.mig ∨ p.2 = Mode.parent))).map
        fun p => statsRecordOfInfo (infos p.1) (statuses p.1)).Perm
      ((e₂.filter fun p => decide (¬(p.2 = Mode.mig ∨ p.2 = Mode.parent))).map
        fun p => statsRecordOfInfo (infos p.1) (statuses p.1)) :=
    (hperm.filter _).map _
  have hpermF : resF₁.Perm resF₂ := hf2.trans (hmapF.trans hg2.symm)
  have hpermS : resS₁.Perm resS₂ := hu2.trans (hmapS.trans ht2.symm)
  have hkeyF : (resF₁.map fun r => r.deviceData.UUID).Nodup := by
    have hcomp : ((e₁.filter fun p => decide (p.2 ≠ Mode.parent)).map
          fun p => fingerprintRecordOfInfo (infos p.1)).map (fun r => r.deviceData.UUID)
        = (e₁.filter fun p => decide (p.2 ≠ Mode.parent)).map
          fun p => (infos p.1).UUID := by
      simp only [List.map_map]
      rfl
    exact ((hf2.map fun r => r.deviceData.UUID).nodup_iff).mpr (by rw [hcomp]; exact hnodupF)
  have hkeyS : (resS₁.map fun r => r.deviceData.UUID).Nodup := by
    have hcomp : ((e₁.filter fun p => decide (¬(p.2 = Mode.mig ∨ p.2 = Mode.parent))).map
          fun p => statsRecordOfInfo (infos p.1) (statuses p.1)).map
            (fun r => r.deviceData.UUID)
        = (e₁.filter fun p => decide (¬(p.2 = Mode.mig ∨ p.2 = Mode.parent))).map
          fun p => (infos p.1).UUID := by
      simp only [List.map_map]
      rfl
    exact ((hu2.map fun r => r.deviceData.UUID).nodup_iff).mpr (by rw [hcomp]; exact hnodupS)
  have hsF₁' : List.Sorted
      (fun a b : FingerprintDeviceData => a.deviceData.UUID ≤ b.deviceData.UUID) resF₁ := hsF₁
  have hsF₂' : List.Sorted
      (fun a b : FingerprintDeviceData => a.deviceData.UUID ≤ b.deviceData.UUID) resF₂ := hsF₂
  have hsS₁' : List.Sorted
      (fun a b : StatsData => a.deviceData.UUID ≤ b.deviceData.UUID) resS₁ := hsS₁
  have hsS₂' : List.Sorted
      (fun a b : StatsData => a.deviceData.UUID ≤ b.deviceData.UUID) resS₂ := hsS₂
  have heqF : resF₁ = resF₂ :=
    eq_of_perm_of_sorted_on_key (fun r => r.deviceData.UUID) hpermF hsF₁' hsF₂' hkeyF
  have heqS : resS₁ = resS₂ :=
    eq_of_perm_of_sorted_on_key (fun r => r.deviceData.UUID) hpermS hsS₁' hsS₂' hkeyS
  have hout₁ : GetFingerprintData d₁ = .ok ⟨resF₁, version⟩ := by
    simp [GetFingerprintData, hv₁, hl₁, hf1]
  have hout₂ : GetFingerprintData d₂ = .ok ⟨resF₂, version⟩ := by
    simp [GetFingerprintData, hv₂, hl₂, hg1]
  have hsout₁ : GetStatsData d₁ = .ok resS₁ := by
    simp [GetStatsData, hl₁, hu1]
  have hsout₂ : GetStatsData d₂ = .ok resS₂ := by
    simp [GetStatsData, hl₂, ht1]
  refine ⟨?_, ?_, ?_, ?_⟩
  · rw [hout₁, hout₂, heqF]
  · rw [hsout₁, hsout₂, heqS]
  · intro fd hfd
    have h := hout₁.symm.trans hfd
    have h' : (⟨resF₁, version⟩ : FingerprintData) = fd := by
      injection h
    rw [← h']
    exact hsF₁
  · intro sd hsd
    have h := hsout₁.symm.trans hsd
    have h' : resS₁ = sd := by
      injection h
    rw [← h']
    exact hsS₁

/-- A second concrete device map: the same entries as `entriesW`,
iterated in a different order. -/
def entriesW2 : List (String × Mode) :=
  [("uuid-b", Mode.mig), ("uuid-a", Mode.normal), ("uuid-c", Mode.parent)]

/-- A concrete driver identical to `driverW` except that its device map
is iterated in the other order. -/
def driverW2 : NvmlDriver :=
  { SystemDriverVersion := .ok "driver-1"
    ListDeviceUUIDs := .ok entriesW2
    DeviceInfoByUUID := fun u => .ok (infosW u)
    DeviceInfoAndStatusByUUID := fun u => .ok (infosW u, statusesW u) }

theorem client_output_deterministic_sorted_witness :
    GetFingerprintData driverW = GetFingerprintData driverW2 ∧
    GetStatsData driverW = GetStatsData driverW2 :=
  ⟨(client_output_deterministic_sorted driverW driverW2 "driver-1" entriesW entriesW2
      infosW statusesW rfl rfl rfl rfl (fun _ => rfl) (fun _ => rfl) (fun _ => rfl)
      (fun _ => rfl) (by decide) (by decide) (by decide)).1,
    (client_output_deterministic_sorted driverW driverW2 "driver-1" entriesW entriesW2
      infosW statusesW rfl rfl rfl rfl (fun _ => rfl) (fun _ => rfl) (fun _ => rfl)
      (fun _ => rfl) (by decide) (by decide) (by decide)).2.1⟩

/-! ## Claim theorems for the attribute normalizers -/

/-- A concrete `StatsData` with every optional field present, mirroring
the "All fields in ItemStat are not nil" row of `TestStatsForItem`. -/
def statsAllPresent : StatsData :=
  { deviceData :=
      { UUID := "UUID1"
        DeviceName := some "DeviceName1"
        MemoryMiB := some 1
        PowerW := some 1
        BAR1MiB := some 256 }
    PowerUsageW := some 1
    GPUUtilization := some 1
    MemoryUtilization := some 1
    EncoderUtilization := some 1
    DecoderUtilization := some 1
    TemperatureC := some 1
    UsedMemoryMiB := some 1
    BAR1UsedMiB := some 1
    ECCErrorsL1Cache := some 100
    ECCErrorsL2Cache := some 100
    ECCErrorsDevice := some 100 }

/-- `statsAllPresent` with the `PowerW` ceiling absent, mirroring the
"PowerW is nil" row of `TestStatsForItem`. -/
def statsNoPowerCeiling : StatsData :=
  { statsAllPresent with
    deviceData := { statsAllPresent.deviceData with PowerW := none } }

/-- A concrete `FingerprintDeviceData` with `MemoryMiB` absent,
mirroring the "nil values are omitted" row of
`TestAttributesFromFingerprintDeviceData`. -/
def fingerprintNoMemory : FingerprintDeviceData :=
  { deviceData :=
      { UUID := "1"
        DeviceName := some "Type1"
        MemoryMiB := none
        PowerW := some 2
        BAR1MiB := some 256 }
    PCIBandwidthMBPerS := none
    CoresClockMHz := none
    MemoryClockMHz := none
    DisplayState := "Enabled"
    PersistenceMode := "Enabled"
    PCIBusID := "pciBusID1" }

/-- Counterexample to C4: the fingerprint normalizer does not emit a
"not available" sentinel attribute for an absent source field — with
`MemoryMiB` absent it emits no memory attribute at all (the claim would
require `MemoryAttr` to be `some` attribute carrying the sentinel
string). -/
theorem fingerprint_attrs_sentinel_counterexample :
    fingerprintNoMemory.deviceData.MemoryMiB = none ∧
    (attributesFromFingerprintDeviceData fingerprintNoMemory).MemoryAttr = none :=
  ⟨rfl, rfl⟩

/-- C4 as amended: `statsForItem` renders each single-source stats
attribute as the sentinel string with the field's registered unit and
description when the source field is absent and as the typed integer
form when present, while `attributesFromFingerprintDeviceData` omits an
attribute whose source field is absent and emits the typed form (with
the registered unit) when present. -/
theorem attribute_normalizers_presence_rule (s : StatsData) (ts : Int)
    (d : FingerprintDeviceData) :
    ((statsForItem s ts).Stats.GPUUtilizationAttr =
      match s.GPUUtilization with
      | some v => intStat GPUUtilizationUnit GPUUtilizationDesc v
      | none => notAvailableStat GPUUtilizationUnit GPUUtilizationDesc) ∧
    ((statsForItem s ts).Stats.MemoryUtilizationAttr =
      match s.MemoryUtilization with
      | some v => intStat MemoryUtilizationUnit MemoryUtilizationDesc v
      | none => notAvailableStat MemoryUtilizationUnit MemoryUtilizationDesc) ∧
    ((statsForItem s ts).Stats.EncoderUtilizationAttr =
      match s.EncoderUtilization with
      | some v => intStat EncoderUtilizationUnit EncoderUtilizationDesc v
      | none => notAvailableStat EncoderUtilizationUnit EncoderUtilizationDesc) ∧
    ((statsForItem s ts).Stats.DecoderUtilizationAttr =
      match s.DecoderUtilization with
      | some v => intStat DecoderUtilizationUnit DecoderUtilizationDesc v
      | none => notAvailableStat DecoderUtilizationUnit DecoderUtilizationDesc) ∧
    ((statsForItem s ts).Stats.TemperatureAttr =
      match s.TemperatureC with
      | some v => intStat TemperatureUnit TemperatureDesc v
      | none => notAvailableStat TemperatureUnit TemperatureDesc) ∧
    ((statsForItem s ts).Stats.ECCErrorsL1CacheAttr =
      match s.ECCErrorsL1Cache with
      | some v => intStat ECCErrorsL1CacheUnit ECCErrorsL1CacheDesc v
      | none => notAvailableStat ECCErrorsL1CacheUnit ECCErrorsL1CacheDesc) ∧
    ((statsForItem s ts).Stats.ECCErrorsL2CacheAttr =
      match s.ECCErrorsL2Cache with
      | some v => intStat ECCErrorsL2CacheUnit ECCErrorsL2CacheDesc v
      | none => notAvailableStat ECCErrorsL2CacheUnit ECCErrorsL2CacheDesc) ∧
    ((statsForItem s ts).Stats.ECCErrorsDeviceAttr =
      match s.ECCErrorsDevice with
      | some v => intStat ECCErrorsDeviceUnit ECCErrorsDeviceDesc v
      | none => notAvailableStat ECCErrorsDeviceUnit ECCErrorsDeviceDesc) ∧
    ((attributesFromFingerprintDeviceData d).MemoryAttr =
      match d.deviceData.MemoryMiB with
      | some v => some ⟨UnitMiB, some (v : Int), none⟩
      | none => none) ∧
    ((attributesFromFingerprintDeviceData d).PowerAttr =
      match d.deviceData.PowerW with
      | some v => some ⟨UnitW, some (v : Int), none⟩
      | none => none) ∧
    ((attributesFromFingerprintDeviceData d).BAR1Attr =
      match d.deviceData.BAR1MiB with
      | some v => some ⟨UnitMiB, some (v : Int), none⟩
      | none => none) ∧
    ((attributesFromFingerprintDeviceData d).PCIBandwidthAttr =
      match d.PCIBandwidthMBPerS with
      | some v => some ⟨UnitMBPerS, some (v : Int), none⟩
      | none => none) ∧
    ((attributesFromFingerprintDeviceData d).CoresClockAttr =
      match d.CoresClockMHz with
      | some v => some ⟨UnitMHz, some (v : Int), none⟩
      | none => none) ∧
    ((attributesFromFingerprintDeviceData d).MemoryClockAttr =
      match d.MemoryClockMHz with
      | some v => some ⟨UnitMHz, some (v : Int), none⟩
      | none => none) ∧
    (attributesFromFingerprintDeviceData d).DisplayStateAttr
      = ⟨"", none, some d.DisplayState⟩ ∧
    (attributesFromFingerprintDeviceData d).PersistenceModeAttr
      = ⟨"", none, some d.PersistenceMode⟩ := by
  rcases s with ⟨⟨_, _, _, _, _⟩, pu, gu, mu, eu, du, tc, um, bu, ec1, ec2, ecd⟩
  rcases d with ⟨⟨_, _, dmm, dpw, db1⟩, dpci, dcc, dmc, _, _, _⟩
  refine ⟨?_, ?_, ?_, ?_, ?_, ?_, ?_, ?_, ?_, ?_, ?_, ?_, ?_, ?_, rfl, rfl⟩
  · cases gu <;> rfl
  · cases mu <;> rfl
  · cases eu <;> rfl
  · cases du <;> rfl
  · cases tc <;> rfl
  · cases ec1 <;> rfl
  · cases ec2 <;> rfl
  · cases ecd <;> rfl
  · cases dmm <;> rfl
  · cases dpw <;> rfl
  · cases db1 <;> rfl
  · cases dpci <;> rfl
  · cases dcc <;> rfl
  · cases dmc <;> rfl

/-- Counterexample to C5: the power-usage attribute of `statsForItem` is
not a plain scalar — with every field present it carries a denominator
(the `PowerW` ceiling), and with `PowerUsageW` present but `PowerW`
absent it degrades to the "not available" string instead of a single
integer, so its presence does depend on the `PowerW` capacity. -/
theorem power_usage_scalar_counterexample :
    (statsForItem statsAllPresent 0).Stats.PowerUsageAttr.IntDenominatorVal = some 1 ∧
    statsNoPowerCeiling.PowerUsageW = some 1 ∧
    (statsForItem statsNoPowerCeiling 0).Stats.PowerUsageAttr.StringVal
      = some notAvailable :=
  ⟨rfl, rfl, rfl⟩

/-- C5 as amended: exactly three attributes are emitted in
numerator/denominator ratio form — memory-state, BAR1-state and power
usage (numerator `PowerUsageW`, denominator the `PowerW` ceiling, both
halves required, sentinel otherwise) — and every other registry
attribute is a plain scalar that never carries a denominator. -/
theorem ratio_attribute_registry (s : StatsData) (ts : Int) :
    ((statsForItem s ts).Stats.PowerUsageAttr =
      match s.PowerUsageW, s.deviceData.PowerW with
      | some usage, some ceiling => ratioStat PowerUsageUnit PowerUsageDesc usage ceiling
      | _, _ => notAvailableStat PowerUsageUnit PowerUsageDesc) ∧
    (statsForItem s ts).Stats.GPUUtilizationAttr.IntDenominatorVal = none ∧
    (statsForItem s ts).Stats.MemoryUtilizationAttr.IntDenominatorVal = none ∧
    (statsForItem s ts).Stats.EncoderUtilizationAttr.IntDenominatorVal = none ∧
    (statsForItem s ts).Stats.DecoderUtilizationAttr.IntDenominatorVal = none ∧
    (statsForItem s ts).Stats.TemperatureAttr.IntDenominatorVal = none ∧
    (statsForItem s ts).Stats.ECCErrorsL1CacheAttr.IntDenominatorVal = none ∧
    (statsForItem s ts).Stats.ECCErrorsL2CacheAttr.IntDenominatorVal = none ∧
    (statsForItem s ts).Stats.ECCErrorsDeviceAttr.IntDenominatorVal = none := by
  rcases s with ⟨⟨_, _, _, pw, _⟩, pu, gu, mu, eu, du, tc, um, bu, ec1, ec2, ecd⟩
  refine ⟨?_, ?_, ?_, ?_, ?_, ?_, ?_, ?_, ?_⟩
  · cases pu <;> cases pw <;> rfl
  · cases gu <;> rfl
  · cases mu <;> rfl
  · cases eu <;> rfl
  · cases du <;> rfl
  · cases tc <;> rfl
  · cases ec1 <;> rfl
  · cases ec2 <;> rfl
  · cases ecd <;> rfl

/-- C6: the memory-state and BAR1-state attributes of `statsForItem` are
ratios exactly when both the used value and the capacity value are
present (`UsedMemoryMiB`/`MemoryMiB`, resp. `BAR1UsedMiB`/`BAR1MiB`),
degrading to the sentinel string form otherwise, and replacing those
four source fields by anything leaves every other attribute unchanged. -/
theorem ratio_attributes_both_halves (s : StatsData) (ts : Int)
    (u m b1u b1 : Option Nat) :
    ((statsForItem s ts).Stats.MemoryStateAttr =
      match s.UsedMemoryMiB, s.deviceData.MemoryMiB with
      | some used, some total => ratioStat MemoryStateUnit MemoryStateDesc used total
      | _, _ => notAvailableStat MemoryStateUnit MemoryStateDesc) ∧
    ((statsForItem s ts).Stats.BAR1StateAttr =
      match s.BAR1UsedMiB, s.deviceData.BAR1MiB with
      | some used, some total => ratioStat BAR1StateUnit BAR1StateDesc used total
      | _, _ => notAvailableStat BAR1StateUnit BAR1StateDesc) ∧
    ((statsForItem
        { s with
          UsedMemoryMiB := u
          BAR1UsedMiB := b1u
          deviceData := { s.deviceData with MemoryMiB := m, BAR1MiB := b1 } }
        ts).Stats.PowerUsageAttr = (statsForItem s ts).Stats.PowerUsageAttr) ∧
    ((statsForItem
        { s with
          UsedMemoryMiB := u
          BAR1UsedMiB := b1u
          deviceData := { s.deviceData with MemoryMiB := m, BAR1MiB := b1 } }
        ts).Stats.GPUUtilizationAttr = (statsForItem s ts).Stats.GPUUtilizationAttr) ∧
    ((statsForItem
        { s with
          UsedMemoryMiB := u
          BAR1UsedMiB := b1u
          deviceData := { s.deviceData with MemoryMiB := m, BAR1MiB := b1 } }
        ts).Stats.MemoryUtilizationAttr = (statsForItem s ts).Stats.MemoryUtilizationAttr) ∧
    ((statsForItem
        { s with
          UsedMemoryMiB := u
          BAR1UsedMiB := b1u
          deviceData := { s.deviceData with MemoryMiB := m, BAR1MiB := b1 } }
        ts).Stats.EncoderUtilizationAttr = (statsForItem s ts).Stats.EncoderUtilizationAttr) ∧
    ((statsForItem
        { s with
          UsedMemoryMiB := u
          BAR1UsedMiB := b1u
          deviceData := { s.deviceData with MemoryMiB := m, BAR1MiB := b1 } }
        ts).Stats.DecoderUtilizationAttr = (statsForItem s ts).Stats.DecoderUtilizationAttr) ∧
    ((statsForItem
        { s with
          UsedMemoryMiB := u
          BAR1UsedMiB := b1u
          deviceData := { s.deviceData with MemoryMiB := m, BAR1MiB := b1 } }
        ts).Stats.TemperatureAttr = (statsForItem s ts).Stats.TemperatureAttr) ∧
    ((statsForItem
        { s with
          UsedMemoryMiB := u
          BAR1UsedMiB := b1u
          deviceData := { s.deviceData with MemoryMiB := m, BAR1MiB := b1 } }
        ts).Stats.ECCErrorsL1CacheAttr = (statsForItem s ts).Stats.ECCErrorsL1CacheAttr) ∧
    ((statsForItem
        { s with
          UsedMemoryMiB := u
          BAR1UsedMiB := b1u
          deviceData := { s.deviceData with MemoryMiB := m, BAR1MiB := b1 } }
        ts).Stats.ECCErrorsL2CacheAttr = (statsForItem s ts).Stats.ECCErrorsL2CacheAttr) ∧
    ((statsForItem
        { s with
          UsedMemoryMiB := u
          BAR1UsedMiB := b1u
          deviceData := { s.deviceData with MemoryMiB := m, BAR1MiB := b1 } }
        ts).Stats.ECCErrorsDeviceAttr = (statsForItem s ts).Stats.ECCErrorsDeviceAttr) := by
  rcases s with ⟨⟨_, _, mm, _, bb⟩, pu, gu, mu, eu, du, tc, um, bu, ec1, ec2, ecd⟩
  refine ⟨?_, ?_, rfl, rfl, rfl, rfl, rfl, rfl, rfl, rfl, rfl⟩
  · cases um <;> cases mm <;> rfl
  · cases bu <;> cases bb <;> rfl

/-- C7: the `Summary` of the report built by `statsForItem` is exactly
the memory-state attribute — the used/total-memory ratio with the
memory-state unit and description when both halves are present, the
sentinel form otherwise — and by its shape it is derived from no other
field. -/
theorem summary_is_memory_state (s : StatsData) (ts : Int) :
    (statsForItem s ts).Summary = (statsForItem s ts).Stats.MemoryStateAttr ∧
    ((statsForItem s ts).Summary =
      match s.UsedMemoryMiB, s.deviceData.MemoryMiB with
      | some used, some total => ratioStat MemoryStateUnit MemoryStateDesc used total
      | _, _ => notAvailableStat MemoryStateUnit MemoryStateDesc) := by
  rcases s with ⟨⟨_, _, mm, _, _⟩, pu, gu, mu, eu, du, tc, um, bu, ec1, ec2, ecd⟩
  refine ⟨rfl, ?_⟩
  cases um <;> cases mm <;> rfl

/-! ## Claim theorems for change detection and exclusion filters -/

/-- C8: `fingerprintChanged` reports a change exactly when the set of
UUIDs of the new record list differs from the tracked set (so it is
false on an identical set, true when a UUID is added, removed or swapped
with count preserved, true on the empty-to-non-empty transition and
false when both are empty), and it replaces the tracked set with exactly
the new list's UUID set. -/
theorem fingerprintChanged_set_inequality (d : NvidiaDevice)
    (allDevices : List FingerprintDeviceData) :
    (fingerprintChanged d allDevices).1 =
      decide ((allDevices.map fun dev => dev.deviceData.UUID).toFinset ≠ d.devices) ∧
    (fingerprintChanged d allDevices).2.devices =
      (allDevices.map fun dev => dev.deviceData.UUID).toFinset := by
  refine ⟨?_, rfl⟩
  apply decide_eq_decide.mpr
  constructor
  · rintro (hcard | ⟨u, hu, hnot⟩) heq
    · exact hcard (by rw [heq])
    · exact hnot (heq ▸ hu)
  · intro hne
    by_contra hcon
    push_neg at hcon
    obtain ⟨hcard, hsub⟩ := hcon
    exact hne (Finset.eq_of_subset_of_card_le (fun u hu => hsub u hu) (le_of_eq hcard.symm))

/-- C9: the exclusion filters are exactly list filters on UUID
membership: `ignoreFingerprintedDevices` keeps, in input order, exactly
the records whose UUID is not in the exclusion set, and the allow-list
variant `filterStatsByID` keeps exactly the records whose UUID is in the
given set; both return a plain (possibly empty) list, never an error. -/
theorem exclusion_filters_eq_filter (l : List FingerprintDeviceData) (E : Finset String)
    (sts : List StatsData) (ids : Finset String) :
    ignoreFingerprintedDevices l E
      = l.filter (fun dev => decide (dev.deviceData.UUID ∉ E)) ∧
    filterStatsByID sts ids
      = sts.filter (fun statsItem => decide (statsItem.deviceData.UUID ∈ ids)) := by
  constructor
  · have h := foldl_append_if_eq_filter
      (fun dev : FingerprintDeviceData => decide (dev.deviceData.UUID ∉ E)) l []
    rw [List.nil_append] at h
    rw [← h]
    unfold ignoreFingerprintedDevices
    congr 1
    funext r x
    by_cases hx : x.deviceData.UUID ∈ E <;> simp [hx]
  · have h := foldl_append_if_eq_filter
      (fun statsItem : StatsData => decide (statsItem.deviceData.UUID ∈ ids)) sts []
    rw [List.nil_append] at h
    rw [← h]
    unfold filterStatsByID
    congr 1
    funext r x
    by_cases hx : x.deviceData.UUID ∈ ids <;> simp [hx]

/-! ## Claim theorem for the Linux driver -/

/-- C10: every successful `DeviceInfoByUUID` call of the Linux driver
returns a `DeviceInfo` whose nominally optional fields (`Name`,
`MemoryMiB`, `PowerW`, `BAR1MiB`, `PCIBandwidthMBPerS`, `CoresClockMHz`,
`MemoryClockMHz`) are all populated, and when the power query reports
not-supported the `PowerW` field holds the value `0` rather than being
absent. -/
theorem linux_device_info_fields_present (lib : Nvml) (uuid : String) (di : DeviceInfo)
    (h : DeviceInfoByUUID lib uuid = .ok di) :
    di.Name.isSome = true ∧ di.MemoryMiB.isSome = true ∧ di.PowerW.isSome = true ∧
    di.BAR1MiB.isSome = true ∧ di.PCIBandwidthMBPerS.isSome = true ∧
    di.CoresClockMHz.isSome = true ∧ di.MemoryClockMHz.isSome = true ∧
    ((lib.DeviceGetPowerUsage
        (effectiveDevice lib (lib.DeviceGetHandleByUUID uuid).1)).2
        = NvmlReturn.errorNotSupported → di.PowerW = some 0) := by
  simp only [DeviceInfoByUUID] at h
  by_cases h1 : (lib.DeviceGetHandleByUUID uuid).2 ≠ NvmlReturn.success
  · rw [if_pos h1] at h; cases h
  rw [if_neg h1] at h
  by_cases h2 : (lib.DeviceGetName (lib.DeviceGetHandleByUUID uuid).1).2 ≠ NvmlReturn.success
  · rw [if_pos h2] at h; cases h
  rw [if_neg h2] at h
  by_cases h3 :
      (lib.DeviceGetMemoryInfo (lib.DeviceGetHandleByUUID uuid).1).2 ≠ NvmlReturn.success
  · rw [if_pos h3] at h; cases h
  rw [if_neg h3] at h
  by_cases h4 :
      (lib.DeviceGetDeviceHandleFromMigDeviceHandle
        (lib.DeviceGetHandleByUUID uuid).1).2 ≠ NvmlReturn.errorNotFound ∧
      (lib.DeviceGetDeviceHandleFromMigDeviceHandle
        (lib.DeviceGetHandleByUUID uuid).1).2 ≠ NvmlReturn.errorInvalidArgument ∧
      (lib.DeviceGetDeviceHandleFromMigDeviceHandle
        (lib.DeviceGetHandleByUUID uuid).1).2 ≠ NvmlReturn.success
  · rw [if_pos h4] at h; cases h
  rw [if_neg h4] at h
  by_cases h5 :
      (lib.DeviceGetPowerUsage
        (effectiveDevice lib (lib.DeviceGetHandleByUUID uuid).1)).2 ≠ NvmlReturn.success ∧
      (lib.DeviceGetPowerUsage
        (effectiveDevice lib
          (lib.DeviceGetHandleByUUID uuid).1)).2 ≠ NvmlReturn.errorNotSupported
  · rw [if_pos h5] at h; cases h
  rw [if_neg h5] at h
  by_cases h6 :
      (lib.DeviceGetBAR1MemoryInfo
        (effectiveDevice lib (lib.DeviceGetHandleByUUID uuid).1)).2 ≠ NvmlReturn.success
  · rw [if_pos h6] at h; cases h
  rw [if_neg h6] at h
  by_cases h7 :
      (lib.DeviceGetPciInfo
        (effectiveDevice lib (lib.DeviceGetHandleByUUID uuid).1)).2 ≠ NvmlReturn.success
  · rw [if_pos h7] at h; cases h
  rw [if_neg h7] at h
  by_cases h8 :
      (lib.DeviceGetMaxPcieLinkWidth
        (effectiveDevice lib (lib.DeviceGetHandleByUUID uuid).1)).2 ≠ NvmlReturn.success ∧
      (lib.DeviceGetMaxPcieLinkWidth
        (effectiveDevice lib
          (lib.DeviceGetHandleByUUID uuid).1)).2 ≠ NvmlReturn.errorNotSupported
  · rw [if_pos h8] at h; cases h
  rw [if_neg h8] at h
  by_cases h9 :
      (lib.DeviceGetMaxPcieLinkGeneration
        (effectiveDevice lib (lib.DeviceGetHandleByUUID uuid).1)).2 ≠ NvmlReturn.success ∧
      (lib.DeviceGetMaxPcieLinkGeneration
        (effectiveDevice lib
          (lib.DeviceGetHandleByUUID uuid).1)).2 ≠ NvmlReturn.errorNotSupported
  · rw [if_pos h9] at h; cases h
  rw [if_neg h9] at h
  by_cases h10 :
      (lib.DeviceGetClockInfo (effectiveDevice lib (lib.DeviceGetHandleByUUID uuid).1)
        ClockType.graphics).2 ≠ NvmlReturn.success
  · rw [if_pos h10] at h; cases h
  rw [if_neg h10] at h
  by_cases h11 :
      (lib.DeviceGetClockInfo (effectiveDevice lib (lib.DeviceGetHandleByUUID uuid).1)
        ClockType.mem).2 ≠ NvmlReturn.success
  · rw [if_pos h11] at h; cases h
  rw [if_neg h11] at h
  by_cases h12 :
      (lib.DeviceGetDisplayMode
        (effectiveDevice lib (lib.DeviceGetHandleByUUID uuid).1)).2 ≠ NvmlReturn.success
  · rw [if_pos h12] at h; cases h
  rw [if_neg h12] at h
  by_cases h13 :
      (lib.DeviceGetPersistenceMode
        (effectiveDevice lib (lib.DeviceGetHandleByUUID uuid).1)).2 ≠ NvmlReturn.success
  · rw [if_pos h13] at h; cases h
  rw [if_neg h13] at h
  injection h with h'
  subst h'
  refine ⟨rfl, rfl, rfl, rfl, rfl, rfl, rfl, fun hns => ?_⟩
  simp [hns]

/-- A concrete nvml binding whose queries all succeed except the power
query, which reports not-supported. -/
def nvmlLibW : Nvml :=
  { DeviceGetHandleByUUID := fun _ => (7, .success)
    DeviceGetName := fun _ => ("TypeA", .success)
    DeviceGetMemoryInfo := fun _ => (⟨16 <<< 20, 1 <<< 20⟩, .success)
    DeviceGetDeviceHandleFromMigDeviceHandle := fun _ => (0, .errorNotFound)
    DeviceGetPowerUsage := fun _ => (0, .errorNotSupported)
    DeviceGetBAR1MemoryInfo := fun _ => (⟨256 <<< 20, 1 <<< 20⟩, .success)
    DeviceGetPciInfo := fun _ => ([48, 48], .success)
    DeviceGetMaxPcieLinkWidth := fun _ => (16, .success)
    DeviceGetMaxPcieLinkGeneration := fun _ => (3, .success)
    DeviceGetClockInfo := fun _ _ => (1000, .success)
    DeviceGetDisplayMode := fun _ => ("Enabled", .success)
    DeviceGetPersistenceMode := fun _ => ("Enabled", .success) }

/-- The `DeviceInfo` that `DeviceInfoByUUID` computes over `nvmlLibW`. -/
def deviceInfoW : DeviceInfo :=
  { UUID := "GPU-w"
    PCIBusID := "00"
    DisplayState := "Enabled"
    PersistenceMode := "Enabled"
    Name := some "TypeA"
    MemoryMiB := some 16
    PowerW := some 0
    BAR1MiB := some 256
    PCIBandwidthMBPerS := some 16384
    CoresClockMHz := some 1000
    MemoryClockMHz := some 1000 }

theorem linux_device_info_fields_present_witness :
    DeviceInfoByUUID nvmlLibW "GPU-w" = .ok deviceInfoW ∧
    (deviceInfoW.Name.isSome = true ∧ deviceInfoW.MemoryMiB.isSome = true ∧
      deviceInfoW.PowerW.isSome = true ∧ deviceInfoW.BAR1MiB.isSome = true ∧
      deviceInfoW.PCIBandwidthMBPerS.isSome = true ∧
      deviceInfoW.CoresClockMHz.isSome = true ∧
      deviceInfoW.MemoryClockMHz.isSome = true) ∧
    deviceInfoW.PowerW = some 0 := by
  have hw : DeviceInfoByUUID nvmlLibW "GPU-w" = .ok deviceInfoW := by rfl
  have hmain := linux_device_info_fields_present nvmlLibW "GPU-w" deviceInfoW hw
  exact ⟨hw,
    ⟨hmain.1, hmain.2.1, hmain.2.2.1, hmain.2.2.2.1, hmain.2.2.2.2.1,
      hmain.2.2.2.2.2.1, hmain.2.2.2.2.2.2.1⟩,
    hmain.2.2.2.2.2.2.2 (by rfl)⟩

/-! ## Anchors against the repository's tests

These theorems evaluate the spec-modelled definitions on rows of the
package's tests, pinning the models to the recorded expectations. -/

/-- A minimal fingerprint record with the given UUID, as used by the
rows of `TestIgnoreFingerprintedDevices` and
`TestCheckFingerprintUpdates`. -/
def fpDev (u : String) : FingerprintDeviceData :=
  { deviceData :=
      { UUID := u
        DeviceName := some "DeviceName1"
        MemoryMiB := some 1000
        PowerW := none
        BAR1MiB := none }
    PCIBandwidthMBPerS := none
    CoresClockMHz := none
    MemoryClockMHz := none
    DisplayState := ""
    PersistenceMode := ""
    PCIBusID := "" }

/-- The "Odd ignored" and "All ignored" rows of
`TestIgnoreFingerprintedDevices`. -/
theorem ignoreFingerprintedDevices_matches_tests :
    ignoreFingerprintedDevices [fpDev "UUID1", fpDev "UUID2", fpDev "UUID3"]
        {"UUID2"} = [fpDev "UUID1", fpDev "UUID3"] ∧
    ignoreFingerprintedDevices [fpDev "UUID1", fpDev "UUID2", fpDev "UUID3"]
        {"UUID1", "UUID2", "UUID3"} = [] ∧
    ignoreFingerprintedDevices [fpDev "UUID1", fpDev "UUID2", fpDev "UUID3"]
        ∅ = [fpDev "UUID1", fpDev "UUID2", fpDev "UUID3"] := by
  refine ⟨?_, ?_, ?_⟩ <;> decide

/-- The "Odd are not provided in the map" shape of `TestFilterStatsByID`
on UUID-only records. -/
theorem filterStatsByID_matches_tests :
    filterStatsByID
        [{ statsAllPresent with deviceData := { statsAllPresent.deviceData with UUID := "UUID1" } },
          { statsAllPresent with deviceData := { statsAllPresent.deviceData with UUID := "UUID2" } },
          { statsAllPresent with deviceData := { statsAllPresent.deviceData with UUID := "UUID3" } }]
        {"UUID2"}
      = [{ statsAllPresent with deviceData := { statsAllPresent.deviceData with UUID := "UUID2" } }] := by
  decide

/-- The rows of `TestCheckFingerprintUpdates`: no updates, a device
appearing, a device disappearing, first poll, all devices vanishing, and
the empty-to-empty case. -/
theorem fingerprintChanged_matches_tests :
    (fingerprintChanged ⟨{"1", "2", "3"}⟩ [fpDev "1", fpDev "2", fpDev "3"]).1 = false ∧
    (fingerprintChanged ⟨{"1", "2", "3"}⟩
      [fpDev "1", fpDev "2", fpDev "3", fpDev "I am new"]).1 = true ∧
    (fingerprintChanged ⟨{"1", "2", "3"}⟩ [fpDev "1", fpDev "2"]).1 = true ∧
    (fingerprintChanged ⟨∅⟩ [fpDev "1", fpDev "2", fpDev "3"]).1 = true ∧
    (fingerprintChanged ⟨{"1", "2", "3"}⟩ []).1 = true ∧
    (fingerprintChanged ⟨∅⟩ []).1 = false := by
  refine ⟨?_, ?_, ?_, ?_, ?_, ?_⟩ <;> decide

/-- The "All fields in ItemStat are not nil" row of `TestStatsForItem`:
power usage is the 1/1 ratio, BAR1-state the 1/256 ratio, and the
summary equals the 1/1 memory-state ratio. -/
theorem statsForItem_matches_test_allPresent :
    statsForItem statsAllPresent 4 =
      { Summary := ratioStat MemoryStateUnit MemoryStateDesc 1 1
        Stats :=
          { PowerUsageAttr := ratioStat PowerUsageUnit PowerUsageDesc 1 1
            GPUUtilizationAttr := intStat GPUUtilizationUnit GPUUtilizationDesc 1
            MemoryUtilizationAttr := intStat MemoryUtilizationUnit MemoryUtilizationDesc 1
            EncoderUtilizationAttr := intStat EncoderUtilizationUnit EncoderUtilizationDesc 1
            DecoderUtilizationAttr := intStat DecoderUtilizationUnit DecoderUtilizationDesc 1
            TemperatureAttr := intStat TemperatureUnit TemperatureDesc 1
            MemoryStateAttr := ratioStat MemoryStateUnit MemoryStateDesc 1 1
            BAR1StateAttr := ratioStat BAR1StateUnit BAR1StateDesc 1 256
            ECCErrorsL1CacheAttr := intStat ECCErrorsL1CacheUnit ECCErrorsL1CacheDesc 100
            ECCErrorsL2CacheAttr := intStat ECCErrorsL2CacheUnit ECCErrorsL2CacheDesc 100
            ECCErrorsDeviceAttr := intStat ECCErrorsDeviceUnit ECCErrorsDeviceDesc 100 }
        Timestamp := 4 } := rfl

/-- The "UsedMemoryMiB is nil" row of `TestStatsForItem`: the summary
and the memory-state attribute degrade to the sentinel form while
BAR1-state keeps its ratio. -/
theorem statsForItem_matches_test_usedMemoryNil :
    (statsForItem { statsAllPresent with UsedMemoryMiB := none } 4).Summary
        = notAvailableStat MemoryStateUnit MemoryStateDesc ∧
    (statsForItem { statsAllPresent with UsedMemoryMiB := none } 4).Stats.MemoryStateAttr
        = notAvailableStat MemoryStateUnit MemoryStateDesc ∧
    (statsForItem { statsAllPresent with UsedMemoryMiB := none } 4).Stats.BAR1StateAttr
        = ratioStat BAR1StateUnit BAR1StateDesc 1 256 :=
  ⟨rfl, rfl, rfl⟩

/-- The "nil values are omitted" row of
`TestAttributesFromFingerprintDeviceData`: with `MemoryMiB` absent the
memory attribute is omitted while the present fields keep their typed
forms. -/
theorem attributesFromFingerprint_matches_test :
    attributesFromFingerprintDeviceData fingerprintNoMemory =
      { MemoryAttr := none
        PowerAttr := some ⟨UnitW, some 2, none⟩
        BAR1Attr := some ⟨UnitMiB, some 256, none⟩
        PCIBandwidthAttr := none
        CoresClockAttr := none
        MemoryClockAttr := none
        DisplayStateAttr := ⟨"", none, some "Enabled"⟩
        PersistenceModeAttr := ⟨"", none, some "Enabled"⟩ } := rfl
